import Mathlib

/-!
Verification of the driver-manager orchestrator (`src/nvidia_driver_manager.py`)
against its natural-language specification.

The Python source is shallowly embedded: pure helpers become Lean functions;
interactions with the operating system (subprocess results, the package cache,
the contents of the backup directory, downloaded listings) are passed in
explicitly as values, and the functions return both their result and the list
of commands or abstract steps they would perform, so that ordering and
"no command executed" properties can be stated.
-/

namespace NvidiaDriverManager

/- ============================================================
   CommandExecutor: `SystemManager.run_command` (source lines 899-926).
   ============================================================ -/

/-- Outcome of the underlying `subprocess.run` call: the process completed
with an exit code and captured output, it hit the timeout
(`subprocess.TimeoutExpired`), or some other exception was raised. -/
inductive ProcOutcome where
  | completed (rc : Nat) (stdout : String) (stderr : String)
  | timedOut
  | raised (msg : String)
deriving DecidableEq, Repr

/-- `CommandResult`: exit code, captured stdout, captured stderr. -/
structure CommandResult where
  rc : Nat
  stdout : String
  stderr : String
deriving DecidableEq, Repr

/-- Embedding of `SystemManager.run_command` (lines 899-926).  The command
line actually passed to `subprocess.run` (after the sudo / `sudo -S`
prefixing) does not affect the shape of the result, so the embedding takes
the subprocess outcome as a parameter.  In demo mode the command is echoed;
otherwise: a completed process yields its own exit code and output,
`TimeoutExpired` yields the sentinel `(124, "", "Timeout")`, and any other
exception yields `(1, "", str(e))`. -/
def run_command (demo_mode : Bool) (cmd : List String) (outcome : ProcOutcome) :
    CommandResult :=
  if demo_mode then
    ⟨0, "Komenda: " ++ String.intercalate " " cmd, ""⟩
  else
    match outcome with
    | .completed rc stdout stderr => ⟨rc, stdout, stderr⟩
    | .timedOut => ⟨124, "", "Timeout"⟩
    | .raised msg => ⟨1, "", msg⟩

/- ============================================================
   BackupManager restore: `DriverManagerWindow.restore_backup`
   (lines 3592-3611) and `_run_install_restore` (lines 3613-3620).
   ============================================================ -/

/-- Embedding of `DriverManagerWindow._run_install_restore` (lines 3613-3620).
Returns the exit code reported to the caller together with the list of
package-installation commands that were executed.  `installRc` is the exit
code the `apt-get install` invocation would produce. -/
def run_install_restore (packages : List String) (installRc : Nat) :
    Nat × List (List String) :=
  if packages.isEmpty then (0, [])
  else (installRc, [["apt-get", "install", "-y"] ++ packages])

/-- Embedding of `DriverManagerWindow.restore_backup` (lines 3592-3611).
`sudoOk` is the result of `check_sudo`; `data` is the parsed backup JSON
restricted to its `packages` field (`none` models the file read or JSON
parse raising, which the `except` branch turns into `False`).  Returns the
boolean result together with every package-installation command executed. -/
def restore_backup (sudoOk : Bool) (data : Option (List String))
    (installRc : Nat) : Bool × List (List String) :=
  if !sudoOk then (false, [])
  else
    match data with
    | none => (false, [])
    | some packages =>
      if packages.isEmpty then (false, [])
      else
        let r := run_install_restore packages installRc
        (r.1 == 0, r.2)

/- ============================================================
   VersionResolver: `SystemManager.fetch_versions` (lines 935-982) and the
   fallback constants (lines 757-761).

   The four `re.findall` patterns are embedded as deterministic matchers over
   `List Char`.  Each matcher tries to recognise the pattern at the head of
   its input and returns the matched characters together with the remaining
   input; `findall` scans the content left to right, emitting non-overlapping
   matches exactly as `re.findall` does.  Alternations are tried in the
   regex's left-to-right order, falling through to the next alternative when
   the continuation fails (regex backtracking); the greedy `[0-9]+` and
   `[0-9]{3,}` pieces are deterministic because the character that must
   follow them is never a digit.
   ============================================================ -/

def isDigitChar (c : Char) : Bool := '0' ≤ c && c ≤ '9'

/-- `[0-9]+` (greedy): one or more digits. -/
def digits1 : List Char → Option (List Char × List Char)
  | [] => none
  | c :: rest =>
    if isDigitChar c then some (c :: rest.takeWhile isDigitChar, rest.dropWhile isDigitChar)
    else none

/-- `\.[0-9]+/` -/
def dotNumSlash : List Char → Option (List Char × List Char)
  | '.' :: rest =>
    match digits1 rest with
    | some (ds, r) =>
      match r with
      | '/' :: r2 => some ('.' :: ds ++ ['/'], r2)
      | _ => none
    | none => none
  | _ => none

/-- `[0-9]+\.[0-9]+/` -/
def numDotNumSlash (l : List Char) : Option (List Char × List Char) :=
  match digits1 l with
  | some (ds, r) =>
    match dotNumSlash r with
    | some (m, r2) => some (ds ++ m, r2)
    | none => none
  | none => none

/-- `\.[0-9]+\.[0-9]+/` -/
def dotNumDotNumSlash : List Char → Option (List Char × List Char)
  | '.' :: rest =>
    match numDotNumSlash rest with
    | some (m, r) => some ('.' :: m, r)
    | none => none
  | _ => none

/-- Production pattern `58[0-9]\.[0-9]+\.[0-9]+/` (line 957). -/
def matchProdAt : List Char → Option (List Char × List Char)
  | '5' :: '8' :: c :: rest =>
    if isDigitChar c then
      match dotNumDotNumSlash rest with
      | some (m, r) => some ('5' :: '8' :: c :: m, r)
      | none => none
    else none
  | _ => none

/-- Legacy pattern `470\.[0-9]+\.[0-9]+/` (line 975). -/
def matchLegacyAt : List Char → Option (List Char × List Char)
  | '4' :: '7' :: '0' :: rest =>
    match dotNumDotNumSlash rest with
    | some (m, r) => some ('4' :: '7' :: '0' :: m, r)
    | none => none
  | _ => none

/-- First new-feature alternative `4[5-9]` followed by `\.[0-9]+/`. -/
def newfAlt1 : List Char → Option (List Char × List Char)
  | d1 :: d2 :: r =>
    if d1 = '4' && '5' ≤ d2 && d2 ≤ '9' then
      match dotNumSlash r with
      | some (m, r2) => some (d1 :: d2 :: m, r2)
      | none => none
    else none
  | _ => none

/-- Second new-feature alternative `[5-9][0-9]` followed by `\.[0-9]+/`. -/
def newfAlt2 : List Char → Option (List Char × List Char)
  | d1 :: d2 :: r =>
    if '5' ≤ d1 && d1 ≤ '9' && isDigitChar d2 then
      match dotNumSlash r with
      | some (m, r2) => some (d1 :: d2 :: m, r2)
      | none => none
    else none
  | _ => none

/-- Third new-feature alternative `[0-9]{3,}` followed by `\.[0-9]+/`. -/
def newfAlt3 : List Char → Option (List Char × List Char)
  | c :: rest =>
    if isDigitChar c then
      let ds := c :: rest.takeWhile isDigitChar
      if 3 ≤ ds.length then
        match dotNumSlash (rest.dropWhile isDigitChar) with
        | some (m, r) => some (ds ++ m, r)
        | none => none
      else none
    else none
  | [] => none

/-- New-feature pattern `590\.(?:4[5-9]|[5-9][0-9]|[0-9]{3,})\.[0-9]+/`
(line 963). -/
def matchNewfAt : List Char → Option (List Char × List Char)
  | '5' :: '9' :: '0' :: '.' :: rest =>
    match
      (match newfAlt1 rest with
       | some x => some x
       | none =>
         match newfAlt2 rest with
         | some x => some x
         | none => newfAlt3 rest) with
    | some (m, r) => some ('5' :: '9' :: '0' :: '.' :: m, r)
    | none => none
  | _ => none

/-- First beta alternative `[0-3][0-9]` followed by `\.[0-9]+/`. -/
def betaAlt1 : List Char → Option (List Char × List Char)
  | d1 :: d2 :: r =>
    if '0' ≤ d1 && d1 ≤ '3' && isDigitChar d2 then
      match dotNumSlash r with
      | some (m, r2) => some (d1 :: d2 :: m, r2)
      | none => none
    else none
  | _ => none

/-- Second beta alternative `4[0-4]` followed by `\.[0-9]+/`. -/
def betaAlt2 : List Char → Option (List Char × List Char)
  | d1 :: d2 :: r =>
    if d1 = '4' && '0' ≤ d2 && d2 ≤ '4' then
      match dotNumSlash r with
      | some (m, r2) => some (d1 :: d2 :: m, r2)
      | none => none
    else none
  | _ => none

/-- Beta pattern `590\.(?:[0-3][0-9]|4[0-4])\.[0-9]+/` (line 969). -/
def matchBetaAt : List Char → Option (List Char × List Char)
  | '5' :: '9' :: '0' :: '.' :: rest =>
    match
      (match betaAlt1 rest with
       | some x => some x
       | none => betaAlt2 rest) with
    | some (m, r) => some ('5' :: '9' :: '0' :: '.' :: m, r)
    | none => none
  | _ => none

/-- `re.findall`: scan the content left to right, collecting non-overlapping
matches; on a match, scanning resumes after the matched text.  Every pattern
above consumes at least one character on success, so `content.length` steps
of fuel suffice. -/
def findallAux (p : List Char → Option (List Char × List Char)) :
    Nat → List Char → List String
  | 0, _ => []
  | _, [] => []
  | fuel + 1, c :: rest =>
    match p (c :: rest) with
    | some (m, r) => String.mk m :: findallAux p fuel r
    | none => findallAux p fuel rest

def findall (p : List Char → Option (List Char × List Char)) (content : String) :
    List String :=
  findallAux p content.data.length content.data

/-- Python `x.rstrip("/")`: remove all trailing slashes. -/
def rstripSlash (s : String) : String :=
  String.mk ((s.data.reverse.dropWhile (fun c => c = '/')).reverse)

/-- Python `int` on a string of decimal digits. -/
def natOfDigits (l : List Char) : Nat :=
  l.foldl (fun n c => 10 * n + (c.toNat - 48)) 0

/-- Python `str.split(sep)` for a one-character separator, at the character
level. -/
def splitOnChar (sep : Char) : List Char → List (List Char)
  | [] => [[]]
  | c :: rest =>
    if c = sep then [] :: splitOnChar sep rest
    else
      match splitOnChar sep rest with
      | g :: gs => (c :: g) :: gs
      | [] => [[c]]

/-- The sort key `[int(i) for i in x.rstrip("/").split(".")]`. -/
def verKey (s : String) : List Nat :=
  (splitOnChar '.' (rstripSlash s).data).map natOfDigits

/-- Python `<` on lists of integers (lexicographic). -/
def natListLt : List Nat → List Nat → Bool
  | [], [] => false
  | [], _ :: _ => true
  | _ :: _, [] => false
  | a :: xs, b :: ys => if a < b then true else if b < a then false else natListLt xs ys

/-- One comparison step of the maximum-by-key selection: keep the current
best unless the new element's key is not smaller (Python's stable sort lets
a later element with an equal key win the last position). -/
def pickLater (acc : Option String) (x : String) : Option String :=
  match acc with
  | none => some x
  | some b => if natListLt (verKey x) (verKey b) then some b else some x

/-- `sorted(ms, key=verKey)[-1]`: the element with the greatest key; Python's
sort is stable, so among equal keys the one occurring last wins. -/
def sortedLastByKey (ms : List String) : Option String :=
  ms.foldl pickLater none

/-- Fallback version constants (lines 757-761). -/
def PRODUCTION_VERSION : String := "580.126.09"

def NEW_FEATURE_VERSION : String := "590.48.01"

def BETA_VERSION : String := "575.54.14"

def LEGACY_VERSION : String := "470.256.02"

structure Versions where
  production : String
  new_feature : String
  beta : String
  legacy : String
deriving DecidableEq, Repr

def fallbackVersions : Versions :=
  ⟨PRODUCTION_VERSION, NEW_FEATURE_VERSION, BETA_VERSION, LEGACY_VERSION⟩

/-- `if m: versions[k] = sorted(m, key=...)[-1].rstrip("/")` — an empty match
list keeps the fallback. -/
def seriesPick (found : List String) (fallback : String) : String :=
  match sortedLastByKey found with
  | some v => rstripSlash v
  | none => fallback

/-- The parsing part of `fetch_versions` applied to a successfully fetched
directory listing (lines 953-978). -/
def parse_versions (content : String) : Versions :=
  { production := seriesPick (findall matchProdAt content) PRODUCTION_VERSION
    new_feature := seriesPick (findall matchNewfAt content) NEW_FEATURE_VERSION
    beta := seriesPick (findall matchBetaAt content) BETA_VERSION
    legacy := seriesPick (findall matchLegacyAt content) LEGACY_VERSION }

/-- The `for tool in ["curl", "wget"]` loop (lines 950-952): the first
download attempt that exits 0 with non-empty stdout supplies the content. -/
def pickDownload (downloads : List (Nat × String)) : Option String :=
  match downloads.find? (fun r => r.1 == 0 && !(r.2 == "")) with
  | some r => some r.2
  | none => none

/-- Embedding of `SystemManager.fetch_versions` (lines 935-982).
`downloads` carries the `(exit code, stdout)` of the curl attempt followed by
the wget attempt. -/
def fetch_versions (demo_mode : Bool) (downloads : List (Nat × String)) :
    Versions :=
  if demo_mode then fallbackVersions
  else
    match pickDownload downloads with
    | none => fallbackVersions
    | some content => parse_versions content

/- ============================================================
   SystemProbe: `SystemManager.detect_distro` (lines 818-844) and
   `SystemManager.get_missing_dependency_packages` (lines 1052-1078).
   ============================================================ -/

def ubuntu_ids : List String :=
  ["ubuntu", "kubuntu", "lubuntu", "xubuntu", "pop", "linuxmint", "zorin",
   "elementary", "neon"]

def fedora_ids : List String := ["fedora", "rhel", "centos", "rocky", "alma"]

/-- The classification performed by `detect_distro` (lines 831-839) on the
`ID=` value read from `/etc/os-release`. -/
def classify_distro_id (distro_id : String) : String :=
  if ubuntu_ids.contains distro_id then "ubuntu"
  else if distro_id = "debian" then "debian"
  else if fedora_ids.contains distro_id then "fedora"
  else "other"

/-- Embedding of `get_missing_dependency_packages` (lines 1052-1078).
`query` gives the exit code of each probe command; the function returns the
package-manager commands it ran together with the missing-package list. -/
def get_missing_dependency_packages (demo_mode : Bool) (distro_family : String)
    (install_type : String) (kernel : String) (query : List String → Nat) :
    List (List String) × List String :=
  if demo_mode || !(install_type = "repo" || install_type = "run") then ([], [])
  else if distro_family = "fedora" then
    let q1 := ["rpm", "-q", "kernel-devel"]
    let q2 := ["rpm", "-q", "gcc"]
    ([q1, q2],
      (if query q1 ≠ 0 then ["kernel-devel"] else []) ++
      (if query q2 ≠ 0 then ["gcc"] else []))
  else
    let q1 := ["dpkg", "-l", "linux-headers-" ++ kernel]
    let q2 := ["dpkg", "-l", "dkms"]
    let q3 := ["dpkg", "-l", "build-essential"]
    ([q1, q2, q3],
      (if query q1 ≠ 0 then ["linux-headers-" ++ kernel] else []) ++
      (if query q2 ≠ 0 then ["dkms"] else []) ++
      (if query q3 ≠ 0 then ["build-essential"] else []))

/- ============================================================
   VersionResolver, repository side: `SystemManager.highest_repo_driver`
   (lines 984-1008) and `highest_repo_driver_latest` (lines 1033-1050).
   ============================================================ -/

def isSpaceChar (c : Char) : Bool :=
  c = ' ' || c = '\t' || c = '\n' || c = '\r'

/-- Python `str.strip()` at the character level. -/
def stripChars (l : List Char) : List Char :=
  ((l.dropWhile isSpaceChar).reverse.dropWhile isSpaceChar).reverse

/-- The per-line extraction in both repo scans: the first line starting with
`Version:` yields `line.split(":")[1].strip().split("-")[0]`; `none` when no
such line exists. -/
def extract_version (stdout : String) : Option String :=
  (splitOnChar '\n' stdout.data).findSome? (fun line =>
    if List.isPrefixOf "Version:".data line then
      some (String.mk
        ((splitOnChar '-' (stripChars ((splitOnChar ':' line).getD 1 []))).headD []))
    else none)

/-- The fixed descending candidate series list (lines 994 and 1042). -/
def series_list : List Nat := [610, 600, 590, 580, 550, 535, 525, 515]

/-- One `apt-cache show nvidia-driver-{v}-open` probe: `apt v` is the
`(exit code, stdout)` of the command; the probe resolves when the exit code
is 0 and a `Version:` line is present. -/
def resolve_series (apt : Nat → Nat × String) (v : Nat) : Option String :=
  if (apt v).1 = 0 then extract_version (apt v).2 else none

/-- The `available` list accumulated by `highest_repo_driver`. -/
def available_list (apt : Nat → Nat × String) : List (Nat × String) :=
  series_list.filterMap (fun v => (resolve_series apt v).map (fun ver => (v, ver)))

/-- Python `"." in version`. -/
def containsDot (s : String) : Bool := s.data.any (fun c => c = '.')

/-- Embedding of `highest_repo_driver` (lines 984-1008).
`fedora_repo_version` is the memoized `_fedora_repo_driver_version()` result
(empty string when the dnf query found nothing). -/
def highest_repo_driver (demo_mode : Bool) (distro_family : String)
    (fedora_repo_version : String) (apt : Nat → Nat × String) : String :=
  if demo_mode then "580.126.09"
  else if distro_family = "fedora" then
    (if fedora_repo_version = "" then "580" else fedora_repo_version)
  else
    match available_list apt with
    | _ :: (v, ver) :: _ => if containsDot ver then ver else toString v
    | [(v, ver)] => if containsDot ver then ver else toString v
    | [] => "580"

/-- Embedding of `highest_repo_driver_latest` (lines 1033-1050): returns on
the first series that resolves. -/
def highest_repo_driver_latest (demo_mode : Bool) (distro_family : String)
    (fedora_repo_version : String) (apt : Nat → Nat × String) : String :=
  if demo_mode then "590.48.01"
  else if distro_family = "fedora" then
    (if fedora_repo_version = "" then "580" else fedora_repo_version)
  else
    match available_list apt with
    | (v, ver) :: _ => if containsDot ver then ver else toString v
    | [] => "580"

/- ============================================================
   BackupManager: `DriverManagerWindow.create_backup` (lines 3541-3574),
   retention part.  The backup directory is modelled as the list of its
   `backup-*.json` file names; the timestamped names (`backup-%Y%m%d-%H%M%S`)
   are fixed-width, so their lexicographic order is creation order.
   ============================================================ -/

def MAX_BACKUPS : Nat := 10

/-- Python's `<` on file-name strings: code-point lexicographic comparison,
taken at the character-list level (`List.lt`). -/
def nameLt (a b : String) : Prop := List.lt a.data b.data

/-- Python's `<=` on file-name strings (the comparison `sorted` uses). -/
def nameLe (a b : String) : Prop := ¬ List.lt b.data a.data

instance instDecNameLt : DecidableRel nameLt :=
  fun a b => List.hasDecidableLt a.data b.data

instance instDecNameLe : DecidableRel nameLe :=
  fun a b => @instDecidableNot _ (List.hasDecidableLt b.data a.data)

/-- The directory effect of one successful `create_backup` call: the new
record is written, then `sorted(BACKUP_DIR.glob("backup-*.json"))` is taken
and the oldest entries beyond `MAX_BACKUPS` are deleted (lines 3558-3570). -/
def create_backup_dir (dir : List String) (name : String) : List String :=
  let all_backups := List.insertionSort nameLe (name :: dir)
  if MAX_BACKUPS < all_backups.length then
    all_backups.drop (all_backups.length - MAX_BACKUPS)
  else all_backups

/-- A sequence of successful snapshots applied to an initial directory. -/
def snapshots (dir : List String) (names : List String) : List String :=
  names.foldl create_backup_dir dir

/- ============================================================
   Orchestrator entry points and strategy traces.

   Each GUI entry point (`DriverManagerWindow.install_nvk` lines 3689-3756,
   `install_repo` 3758-3805, `install_repo_latest` 3807-3854,
   `install_nvidia_run` 3856-3906, `uninstall_nvidia_only` 3908-3932,
   `upgrade_repo_driver` 3934-3962) is modelled as a transition on the
   window state (its `_install_thread` field) that also yields the ordered
   list of abstract steps performed; the `InstallationThread` strategy bodies
   (`install_nvk` 1409-1459, `install_repo` 1487-1582, `install_nvidia_run`
   1584-1640, `install_uninstall` 1223-1247, `install_upgrade_repo`
   1249-1280) are modelled as step traces on their success path.  Boolean
   parameters stand for the outcomes of guard dialogs and checks.
   ============================================================ -/

inductive Step where
  | check_sudo
  | confirm
  | check_requirements
  | offer_dnf5
  | create_backup
  | start_log
  | thread_start
  | ensure_dependencies
  | ensure_build_requirements
  | ensure_network
  | check_secure_boot
  | download_run
  | clean_artifacts
  | purge_packages
  | remove_dkms
  | remove_configs
  | remove_libraries
  | verify_removal
  | configure_nouveau
  | block_nouveau
  | install_headers
  | update_repos
  | install_packages
  | reinstall_desktop
  | configure_sddm
  | verify_install
  | reboot_service
  | rebuild_initramfs
  | copy_installer
  | generate_script
  | generate_service
  | ask_restart
deriving DecidableEq, Repr

/-- The window state the entry points manipulate: `_install_thread` holds the
identifier of the most recently started installation thread (`None` after a
thread's `finished` handler has run). -/
structure WindowState where
  install_thread : Option Nat
deriving DecidableEq, Repr

/-- The `finished` handlers (e.g. lines 3797-3803): on completion the window
clears `_install_thread`. -/
def on_install_finished (_st : WindowState) : WindowState := ⟨none⟩

/-- Entry point `install_nvk` (lines 3689-3756).  `dialogsOk` is the combined
outcome of the optional kernel-version warning and requirements dialogs
(both offer to abort). -/
def install_nvk_entry (demo_mode sudoOk dialogsOk : Bool) (st : WindowState)
    (tid : Nat) : WindowState × List Step :=
  if demo_mode then (st, [])
  else if !sudoOk then (st, [.check_sudo])
  else if !dialogsOk then (st, [.check_sudo, .check_requirements])
  else
    (⟨some tid⟩,
     [.check_sudo, .check_requirements, .offer_dnf5, .create_backup,
      .start_log, .thread_start])

/-- Entry point `install_repo` (lines 3758-3805); a failed requirements check
only logs and continues. -/
def install_repo_entry (demo_mode sudoOk : Bool) (st : WindowState)
    (tid : Nat) : WindowState × List Step :=
  if demo_mode then (st, [])
  else if !sudoOk then (st, [.check_sudo])
  else
    (⟨some tid⟩,
     [.check_sudo, .check_requirements, .offer_dnf5, .create_backup,
      .start_log, .thread_start])

/-- Entry point `install_repo_latest` (lines 3807-3854). -/
def install_repo_latest_entry (demo_mode sudoOk : Bool) (st : WindowState)
    (tid : Nat) : WindowState × List Step :=
  if demo_mode then (st, [])
  else if !sudoOk then (st, [.check_sudo])
  else
    (⟨some tid⟩,
     [.check_sudo, .check_requirements, .offer_dnf5, .create_backup,
      .start_log, .thread_start])

/-- Entry point `install_nvidia_run` (lines 3856-3906). -/
def install_run_entry (demo_mode sudoOk : Bool) (st : WindowState)
    (tid : Nat) : WindowState × List Step :=
  if demo_mode then (st, [])
  else if !sudoOk then (st, [.check_sudo])
  else
    (⟨some tid⟩,
     [.check_sudo, .check_requirements, .create_backup, .start_log,
      .thread_start])

/-- Entry point `uninstall_nvidia_only` (lines 3908-3932): sudo check, a
confirmation dialog, then the thread is started directly — no backup is
created anywhere on this path. -/
def uninstall_entry (demo_mode sudoOk confirmOk : Bool) (st : WindowState)
    (tid : Nat) : WindowState × List Step :=
  if demo_mode then (st, [])
  else if !sudoOk then (st, [.check_sudo])
  else if !confirmOk then (st, [.check_sudo, .confirm])
  else (⟨some tid⟩, [.check_sudo, .confirm, .start_log, .thread_start])

/-- Entry point `upgrade_repo_driver` (lines 3934-3962); when no
repository-installed driver package exists it returns before the sudo
check. -/
def upgrade_repo_entry (demo_mode pkgFound sudoOk : Bool) (st : WindowState)
    (tid : Nat) : WindowState × List Step :=
  if demo_mode then (st, [])
  else if !pkgFound then (st, [])
  else if !sudoOk then (st, [.check_sudo])
  else (⟨some tid⟩, [.check_sudo, .offer_dnf5, .start_log, .thread_start])

/-- Success-path trace of `InstallationThread.install_nvk` (lines
1409-1459). -/
def nvk_thread_trace (fedora : Bool) : List Step :=
  [.clean_artifacts, .purge_packages, .remove_dkms, .remove_configs,
   .remove_libraries, .verify_removal, .configure_nouveau,
   .install_packages] ++
  (if fedora then [.rebuild_initramfs]
   else [.reinstall_desktop, .configure_sddm]) ++
  [.verify_install, .reboot_service, .ask_restart]

/-- Success-path trace of `InstallationThread.run` for type `repo`
(`_ensure_dependencies` at lines 1290-1292, then `install_repo` lines
1487-1582); `install_headers` stands for the kernel-headers (Debian) or
kernel-devel (Fedora) installation. -/
def repo_thread_trace : List Step :=
  [.ensure_dependencies, .ensure_build_requirements, .ensure_network,
   .check_secure_boot, .clean_artifacts, .remove_dkms, .purge_packages,
   .install_headers, .update_repos, .install_packages, .block_nouveau,
   .rebuild_initramfs, .ask_restart]

/-- Success-path trace of `InstallationThread.run` for type `run`
(`_ensure_dependencies`, then `install_nvidia_run` lines 1584-1640). -/
def run_thread_trace : List Step :=
  [.ensure_dependencies, .ensure_build_requirements, .download_run,
   .clean_artifacts, .remove_dkms, .purge_packages, .block_nouveau,
   .rebuild_initramfs, .copy_installer, .generate_script, .generate_service,
   .ask_restart]

/-- Trace of `InstallationThread.install_uninstall` (lines 1223-1247). -/
def uninstall_thread_trace : List Step :=
  [.clean_artifacts, .purge_packages, .remove_dkms, .remove_configs,
   .remove_libraries, .verify_removal, .configure_nouveau,
   .rebuild_initramfs, .ask_restart]

/-- Success-path trace of `InstallationThread.install_upgrade_repo` (lines
1249-1280). -/
def upgrade_thread_trace : List Step :=
  [.ensure_network, .update_repos, .install_packages, .ask_restart]

/-- Full request trace: entry-point steps followed by the thread's steps. -/
def nvk_request_trace (fedora : Bool) : List Step :=
  (install_nvk_entry false true true ⟨none⟩ 0).2 ++ nvk_thread_trace fedora

def repo_request_trace : List Step :=
  (install_repo_entry false true ⟨none⟩ 0).2 ++ repo_thread_trace

def repo_latest_request_trace : List Step :=
  (install_repo_latest_entry false true ⟨none⟩ 0).2 ++ repo_thread_trace

def run_request_trace : List Step :=
  (install_run_entry false true ⟨none⟩ 0).2 ++ run_thread_trace

def uninstall_request_trace : List Step :=
  (uninstall_entry false true true ⟨none⟩ 0).2 ++ uninstall_thread_trace

def upgrade_request_trace : List Step :=
  (upgrade_repo_entry false true true ⟨none⟩ 0).2 ++ upgrade_thread_trace

/-- The cleanup/removal steps of the CleanupEngine. -/
def cleanup_steps : List Step :=
  [.clean_artifacts, .purge_packages, .remove_dkms, .remove_configs,
   .remove_libraries]

/-- A backup record is created strictly before any cleanup/removal step of
the trace. -/
def backup_before_cleanup (t : List Step) : Prop :=
  Step.create_backup ∈ t ∧
  ∀ s ∈ cleanup_steps, s ∈ t →
    t.indexOf Step.create_backup < t.indexOf s

instance (t : List Step) : Decidable (backup_before_cleanup t) := by
  unfold backup_before_cleanup; infer_instance

/- ============================================================
   Theorems.
   ============================================================ -/

/-- C1 — counterexample.  With a previous installation thread (id 0) still
tracked as in flight, a second `install_repo` request is not rejected: it
creates a backup (system-state mutation), starts a new thread, and
overwrites the tracked thread reference. -/
theorem c1_counterexample :
    (install_repo_entry false true ⟨some 0⟩ 1).1 = ⟨some 1⟩ ∧
    Step.create_backup ∈ (install_repo_entry false true ⟨some 0⟩ 1).2 ∧
    Step.thread_start ∈ (install_repo_entry false true ⟨some 0⟩ 1).2 := by
  decide

/-- C1 — amended.  No entry point consults the in-flight thread: whatever
`_install_thread` holds, a request whose guard dialogs pass proceeds
identically — it performs its full step list (including backup creation
where present) and starts a new thread, overwriting the reference. -/
theorem c1_no_single_flight_guard :
    ∀ (st : WindowState) (tid : Nat),
      install_nvk_entry false true true st tid =
        (⟨some tid⟩,
         [.check_sudo, .check_requirements, .offer_dnf5, .create_backup,
          .start_log, .thread_start]) ∧
      install_repo_entry false true st tid =
        (⟨some tid⟩,
         [.check_sudo, .check_requirements, .offer_dnf5, .create_backup,
          .start_log, .thread_start]) ∧
      install_repo_latest_entry false true st tid =
        (⟨some tid⟩,
         [.check_sudo, .check_requirements, .offer_dnf5, .create_backup,
          .start_log, .thread_start]) ∧
      install_run_entry false true st tid =
        (⟨some tid⟩,
         [.check_sudo, .check_requirements, .create_backup, .start_log,
          .thread_start]) ∧
      uninstall_entry false true true st tid =
        (⟨some tid⟩, [.check_sudo, .confirm, .start_log, .thread_start]) ∧
      upgrade_repo_entry false true true st tid =
        (⟨some tid⟩, [.check_sudo, .offer_dnf5, .start_log, .thread_start]) :=
  fun _ _ => ⟨rfl, rfl, rfl, rfl, rfl, rfl⟩

/-- C2 — counterexample.  The Uninstall request runs cleanup/removal steps
(`purge_packages` among them) but never creates a backup, so "a Backup is
created strictly before any cleanup command" fails on it. -/
theorem c2_counterexample :
    Step.purge_packages ∈ uninstall_request_trace ∧
    ¬ backup_before_cleanup uninstall_request_trace := by
  decide

/-- C2 — amended.  For the NVK, Repository, Repository-latest and
VendorPackage (`run`) install requests a Backup is created strictly before
any cleanup/removal command; the Uninstall request runs cleanup without
creating any backup. -/
theorem c2_backup_before_cleanup_except_uninstall :
    (∀ fedora : Bool, backup_before_cleanup (nvk_request_trace fedora)) ∧
    backup_before_cleanup repo_request_trace ∧
    backup_before_cleanup repo_latest_request_trace ∧
    backup_before_cleanup run_request_trace ∧
    Step.create_backup ∉ uninstall_request_trace := by
  decide

/-- C3.  On the directory listing containing exactly the entries
`580.10.0/`, `580.95.2/`, `590.44.9/`, `590.50.1/`, `470.10.0/`, the
resolver selects production = 580.95.2, new-feature = 590.50.1,
beta = 590.44.9, legacy = 470.10.0, and each entry is matched by exactly
one of the four series patterns. -/
theorem c3_version_selection :
    fetch_versions false
        [(0, "580.10.0/\n580.95.2/\n590.44.9/\n590.50.1/\n470.10.0/\n")] =
      ⟨"580.95.2", "590.50.1", "590.44.9", "470.10.0"⟩ ∧
    ∀ e ∈ ["580.10.0/", "580.95.2/", "590.44.9/", "590.50.1/", "470.10.0/"],
      (findall matchProdAt e).length + (findall matchNewfAt e).length +
        (findall matchBetaAt e).length + (findall matchLegacyAt e).length
        = 1 := by
  decide

/-- C3 — witness: the selection equality together with the exactly-one
classification instantiated at the entry `580.10.0/`. -/
theorem c3_version_selection_witness :
    fetch_versions false
        [(0, "580.10.0/\n580.95.2/\n590.44.9/\n590.50.1/\n470.10.0/\n")] =
      ⟨"580.95.2", "590.50.1", "590.44.9", "470.10.0"⟩ ∧
    (findall matchProdAt "580.10.0/").length +
      (findall matchNewfAt "580.10.0/").length +
      (findall matchBetaAt "580.10.0/").length +
      (findall matchLegacyAt "580.10.0/").length = 1 :=
  ⟨c3_version_selection.1, c3_version_selection.2 "580.10.0/" (by decide)⟩

/-- C6.  Restoring a backup whose captured package list is empty returns
`False` and executes no package-installation command (the second component
lists every command executed), for any sudo-check outcome and any would-be
install exit code — so the installed package set is untouched. -/
theorem c6_restore_empty_package_list :
    ∀ (sudoOk : Bool) (installRc : Nat),
      restore_backup sudoOk (some []) installRc = (false, []) := by
  intro sudoOk installRc
  cases sudoOk <;> rfl

/-- C7.  The command executor is a total function of the subprocess outcome
(it never propagates an exception): on timeout it returns the sentinel
result with exit code 124, on any other exception exit code 1, and the
timeout code is distinct from that ordinary-failure code. -/
theorem c7_run_command_timeout_sentinel :
    ∀ (cmd : List String),
      run_command false cmd .timedOut = ⟨124, "", "Timeout"⟩ ∧
      (∀ msg, run_command false cmd (.raised msg) = ⟨1, "", msg⟩) ∧
      (124 : Nat) ≠ 1 :=
  fun _ => ⟨rfl, fun _ => rfl, by decide⟩

/-- C9 — counterexample.  The unmapped identifier `arch` classifies as
`other`, but dependency checks are not disabled for that family: with every
probe failing, `get_missing_dependency_packages` for family `other` runs the
three dpkg queries and reports all three packages missing. -/
theorem c9_counterexample :
    classify_distro_id "arch" = "other" ∧
    get_missing_dependency_packages false "other" "repo" "unknown"
        (fun _ => 1) =
      ([["dpkg", "-l", "linux-headers-unknown"], ["dpkg", "-l", "dkms"],
        ["dpkg", "-l", "build-essential"]],
       ["linux-headers-unknown", "dkms", "build-essential"]) ∧
    (get_missing_dependency_packages false "other" "repo" "unknown"
        (fun _ => 1)).1 ≠ [] ∧
    (get_missing_dependency_packages false "other" "repo" "unknown"
        (fun _ => 1)).2 ≠ [] := by
  decide

/-- C9 — amended.  Identifiers outside the static mapping classify as
`other`, but this does not disable dependency checks: every non-fedora
family — `other` included — takes the Debian/dpkg branch of
`get_missing_dependency_packages`, so the dpkg queries are attempted and
packages can be reported missing. -/
theorem c9_other_family_takes_dpkg_path :
    (∀ distro_id : String,
      ubuntu_ids.contains distro_id = false → distro_id ≠ "debian" →
      fedora_ids.contains distro_id = false →
      classify_distro_id distro_id = "other") ∧
    (∀ (family install_type kernel : String) (query : List String → Nat),
      family ≠ "fedora" →
      get_missing_dependency_packages false family install_type kernel query =
        get_missing_dependency_packages false "ubuntu" install_type kernel
          query) := by
  constructor
  · intro distro_id h1 h2 h3
    have h1m : distro_id ∉ ubuntu_ids := by simpa using h1
    have h3m : distro_id ∉ fedora_ids := by simpa using h3
    simp [classify_distro_id, h1m, h2, h3m]
  · intro family install_type kernel query hfam
    simp [get_missing_dependency_packages, hfam]

/-- C9 — witness: the amended statement applied at the unmapped id `arch`
and at family `other` with an all-failing query oracle. -/
theorem c9_other_family_takes_dpkg_path_witness :
    classify_distro_id "arch" = "other" ∧
    get_missing_dependency_packages false "other" "repo" "unknown"
        (fun _ => 1) =
      get_missing_dependency_packages false "ubuntu" "repo" "unknown"
        (fun _ => 1) :=
  ⟨c9_other_family_takes_dpkg_path.1 "arch" (by decide) (by decide) (by decide),
   c9_other_family_takes_dpkg_path.2 "other" "repo" "unknown" (fun _ => 1)
     (by decide)⟩

lemma filterMap_eq_single {α β : Type} (f : α → Option β) (l : List α)
    (a : α) (b : β) (hmem : a ∈ l) (hnd : l.Nodup) (hfa : f a = some b)
    (hother : ∀ x ∈ l, x ≠ a → f x = none) :
    l.filterMap f = [b] := by
  induction l with
  | nil => cases hmem
  | cons x xs ih =>
    rcases List.mem_cons.mp hmem with h | h
    · subst h
      have hnil : xs.filterMap f = [] := by
        rw [List.filterMap_eq_nil_iff]
        intro y hy
        exact hother y (List.mem_cons_of_mem _ hy)
          (fun hya => (List.nodup_cons.mp hnd).1 (hya ▸ hy))
      simp [List.filterMap_cons, hfa, hnil]
    · have hxa : x ≠ a := fun hxa => (List.nodup_cons.mp hnd).1 (hxa ▸ h)
      have hrest := ih h (List.nodup_cons.mp hnd).2
        (fun y hy hya => hother y (List.mem_cons_of_mem _ hy) hya)
      simp [List.filterMap_cons, hother x (List.mem_cons_self _ _) hxa,
        hrest]

/-- C4.  With a package cache in which exactly the series 600 and 580
resolve (with dotted version strings `v600`, `v580`), the descending scan
collects `[(600, v600), (580, v580)]`; `highest_repo_driver` returns the
second entry found — the 580 version — and `highest_repo_driver_latest`
returns the first — the 600 version. -/
theorem c4_second_vs_first_series_found (family fedora_ver : String)
    (apt : Nat → Nat × String) (v600 v580 : String)
    (hfam : family ≠ "fedora")
    (h600 : resolve_series apt 600 = some v600)
    (h580 : resolve_series apt 580 = some v580)
    (hother : ∀ v ∈ [610, 590, 550, 535, 525, 515],
      resolve_series apt v = none)
    (hdot600 : containsDot v600 = true)
    (hdot580 : containsDot v580 = true) :
    highest_repo_driver false family fedora_ver apt = v580 ∧
    highest_repo_driver_latest false family fedora_ver apt = v600 := by
  have h610 := hother 610 (by simp)
  have h590 := hother 590 (by simp)
  have h550 := hother 550 (by simp)
  have h535 := hother 535 (by simp)
  have h525 := hother 525 (by simp)
  have h515 := hother 515 (by simp)
  have havail : available_list apt = [(600, v600), (580, v580)] := by
    simp [available_list, series_list, List.filterMap_cons, h610, h600, h590,
      h580, h550, h535, h525, h515]
  constructor
  · simp [highest_repo_driver, hfam, havail, hdot580]
  · simp [highest_repo_driver_latest, hfam, havail, hdot600]

/-- C4 — witness: a concrete cache resolving only the 600 and 580 series. -/
theorem c4_second_vs_first_series_found_witness :
    highest_repo_driver false "ubuntu" ""
        (fun v => if v = 600 then (0, "Version: 600.12.3-0ubuntu1\n")
          else if v = 580 then (0, "Version: 580.95.05-1\n") else (1, "")) =
      "580.95.05" ∧
    highest_repo_driver_latest false "ubuntu" ""
        (fun v => if v = 600 then (0, "Version: 600.12.3-0ubuntu1\n")
          else if v = 580 then (0, "Version: 580.95.05-1\n") else (1, "")) =
      "600.12.3" :=
  c4_second_vs_first_series_found "ubuntu" ""
    (fun v => if v = 600 then (0, "Version: 600.12.3-0ubuntu1\n")
      else if v = 580 then (0, "Version: 580.95.05-1\n") else (1, ""))
    "600.12.3" "580.95.05" (by decide) (by decide) (by decide)
    (by intro v hv; fin_cases hv <;> decide) (by decide) (by decide)

/-- C10.  Edge cases of the repository scan: when no candidate series
resolves, both scans return the fallback `"580"`; when exactly one series
resolves, both return that same single version (the version string when it
contains a dot, otherwise the series number). -/
theorem c10_repo_scan_edge_cases :
    (∀ (family fv : String) (apt : Nat → Nat × String),
      family ≠ "fedora" →
      (∀ v ∈ series_list, resolve_series apt v = none) →
      highest_repo_driver false family fv apt = "580" ∧
      highest_repo_driver_latest false family fv apt = "580") ∧
    (∀ (family fv : String) (apt : Nat → Nat × String) (v : Nat)
      (ver : String),
      family ≠ "fedora" → v ∈ series_list →
      resolve_series apt v = some ver →
      (∀ w ∈ series_list, w ≠ v → resolve_series apt w = none) →
      highest_repo_driver false family fv apt =
        highest_repo_driver_latest false family fv apt ∧
      highest_repo_driver_latest false family fv apt =
        (if containsDot ver then ver else toString v)) := by
  constructor
  · intro family fv apt hfam hnone
    have havail : available_list apt = [] := by
      rw [available_list, List.filterMap_eq_nil_iff]
      intro v hv
      rw [hnone v hv]
      rfl
    constructor
    · simp [highest_repo_driver, hfam, havail]
    · simp [highest_repo_driver_latest, hfam, havail]
  · intro family fv apt v ver hfam hv hres hother
    have havail : available_list apt = [(v, ver)] := by
      apply filterMap_eq_single _ _ v (v, ver) hv (by decide)
      · rw [hres]; rfl
      · intro w hw hwv
        rw [hother w hw hwv]; rfl
    constructor
    · simp [highest_repo_driver, highest_repo_driver_latest, hfam, havail]
    · simp [highest_repo_driver_latest, hfam, havail]

/-- C10 — witness: both parts instantiated — an all-failing cache, and a
cache in which only the 590 series resolves. -/
theorem c10_repo_scan_edge_cases_witness :
    (highest_repo_driver false "ubuntu" "" (fun _ => (1, "")) = "580" ∧
     highest_repo_driver_latest false "ubuntu" "" (fun _ => (1, "")) =
       "580") ∧
    (highest_repo_driver false "ubuntu" ""
        (fun v => if v = 590 then (0, "Version: 590.44.9-2\n")
          else (1, "")) =
      highest_repo_driver_latest false "ubuntu" ""
        (fun v => if v = 590 then (0, "Version: 590.44.9-2\n")
          else (1, "")) ∧
     highest_repo_driver_latest false "ubuntu" ""
        (fun v => if v = 590 then (0, "Version: 590.44.9-2\n")
          else (1, "")) =
      (if containsDot "590.44.9" then "590.44.9" else toString 590)) :=
  ⟨c10_repo_scan_edge_cases.1 "ubuntu" "" (fun _ => (1, "")) (by decide)
    (by intro v hv; fin_cases hv <;> decide),
   c10_repo_scan_edge_cases.2 "ubuntu" ""
    (fun v => if v = 590 then (0, "Version: 590.44.9-2\n") else (1, ""))
    590 "590.44.9" (by decide) (by decide) (by decide)
    (by intro w hw hwv; fin_cases hw <;> simp_all <;> decide)⟩

lemma foldl_pickLater_mem :
    ∀ (ms : List String) (acc : Option String) (v : String),
      ms.foldl pickLater acc = some v → acc = some v ∨ v ∈ ms := by
  intro ms
  induction ms with
  | nil => intro acc v h; exact Or.inl h
  | cons x xs ih =>
    intro acc v h
    rw [List.foldl_cons] at h
    rcases ih _ v h with h2 | h2
    · cases acc with
      | none =>
        right
        rw [show pickLater none x = some x from rfl] at h2
        injection h2 with h3
        exact h3 ▸ List.mem_cons_self _ _
      | some b =>
        rw [show pickLater (some b) x =
            (if natListLt (verKey x) (verKey b) then some b else some x)
          from rfl] at h2
        by_cases hlt : natListLt (verKey x) (verKey b) = true
        · rw [if_pos hlt] at h2
          exact Or.inl h2
        · rw [if_neg hlt] at h2
          right
          injection h2 with h3
          exact h3 ▸ List.mem_cons_self _ _
    · exact Or.inr (List.mem_cons_of_mem _ h2)

lemma sortedLastByKey_mem (ms : List String) (v : String)
    (h : sortedLastByKey ms = some v) : v ∈ ms := by
  rcases foldl_pickLater_mem ms none v h with h2 | h2
  · cases h2
  · exact h2

lemma matchProdAt_head {l m r : List Char}
    (h : matchProdAt l = some (m, r)) : ∃ cs, m = '5' :: cs := by
  unfold matchProdAt at h
  split at h
  · split at h
    · split at h
      · injection h with h1
        injection h1 with hm hr
        exact ⟨_, hm.symm⟩
      · cases h
    · cases h
  · cases h

lemma matchLegacyAt_head {l m r : List Char}
    (h : matchLegacyAt l = some (m, r)) : ∃ cs, m = '4' :: cs := by
  unfold matchLegacyAt at h
  split at h
  · split at h
    · injection h with h1
      injection h1 with hm hr
      exact ⟨_, hm.symm⟩
    · cases h
  · cases h

lemma matchNewfAt_head {l m r : List Char}
    (h : matchNewfAt l = some (m, r)) : ∃ cs, m = '5' :: cs := by
  unfold matchNewfAt at h
  split at h
  · split at h
    · injection h with h1
      injection h1 with hm hr
      exact ⟨_, hm.symm⟩
    · cases h
  · cases h

lemma matchBetaAt_head {l m r : List Char}
    (h : matchBetaAt l = some (m, r)) : ∃ cs, m = '5' :: cs := by
  unfold matchBetaAt at h
  split at h
  · split at h
    · injection h with h1
      injection h1 with hm hr
      exact ⟨_, hm.symm⟩
    · cases h
  · cases h

lemma findallAux_head (p : List Char → Option (List Char × List Char))
    (c0 : Char)
    (hp : ∀ l m r, p l = some (m, r) → ∃ cs, m = c0 :: cs) :
    ∀ (fuel : Nat) (l : List Char) (s : String),
      s ∈ findallAux p fuel l → ∃ cs, s = String.mk (c0 :: cs) := by
  intro fuel
  induction fuel with
  | zero => intro l s h; simp [findallAux] at h
  | succ n ih =>
    intro l s h
    cases l with
    | nil => simp [findallAux] at h
    | cons c rest =>
      rw [show findallAux p (n + 1) (c :: rest) =
          (match p (c :: rest) with
           | some (m, r) => String.mk m :: findallAux p n r
           | none => findallAux p n rest) from rfl] at h
      cases hpc : p (c :: rest) with
      | none =>
        rw [hpc] at h
        exact ih rest s h
      | some mr =>
        rw [hpc] at h
        rcases List.mem_cons.mp h with h1 | h1
        · obtain ⟨cs, hcs⟩ := hp (c :: rest) mr.1 mr.2 (by rw [hpc])
          exact ⟨cs, by rw [h1, hcs]⟩
        · exact ih mr.2 s h1

lemma dropWhile_ne_nil_of_exists {α : Type} (pred : α → Bool) :
    ∀ (l : List α), (∃ x ∈ l, pred x = false) → l.dropWhile pred ≠ [] := by
  intro l
  induction l with
  | nil => rintro ⟨x, hx, _⟩; cases hx
  | cons a l ih =>
    rintro ⟨x, hx, hpx⟩
    rw [List.dropWhile_cons]
    split
    · rcases List.mem_cons.mp hx with rfl | hx2
      · simp_all
      · exact ih ⟨x, hx2, hpx⟩
    · simp

lemma rstripSlash_cons_ne_empty (c : Char) (cs : List Char) (hc : c ≠ '/') :
    rstripSlash (String.mk (c :: cs)) ≠ "" := by
  unfold rstripSlash
  intro hcontra
  have hdata :
      (((c :: cs).reverse.dropWhile (fun x => x = '/')).reverse : List Char)
        = [] := congrArg String.data hcontra
  rw [List.reverse_eq_nil_iff] at hdata
  exact dropWhile_ne_nil_of_exists _ _
    ⟨c, by simp, by simp [hc]⟩ hdata

lemma seriesPick_ne_empty (found : List String) (fb : String) (hfb : fb ≠ "")
    (hfound : ∀ s ∈ found, ∃ c cs, s = String.mk (c :: cs) ∧ c ≠ '/') :
    seriesPick found fb ≠ "" := by
  unfold seriesPick
  cases hs : sortedLastByKey found with
  | none => exact hfb
  | some v =>
    obtain ⟨c, cs, hv, hc⟩ := hfound v (sortedLastByKey_mem _ _ hs)
    rw [hv]
    exact rstripSlash_cons_ne_empty c cs hc

lemma findall_prod_found {content : String} :
    ∀ s ∈ findall matchProdAt content,
      ∃ c cs, s = String.mk (c :: cs) ∧ c ≠ '/' := by
  intro s hs
  obtain ⟨cs, hcs⟩ := findallAux_head matchProdAt '5'
    (fun _ _ _ h => matchProdAt_head h) _ _ s hs
  exact ⟨'5', cs, hcs, by decide⟩

lemma findall_newf_found {content : String} :
    ∀ s ∈ findall matchNewfAt content,
      ∃ c cs, s = String.mk (c :: cs) ∧ c ≠ '/' := by
  intro s hs
  obtain ⟨cs, hcs⟩ := findallAux_head matchNewfAt '5'
    (fun _ _ _ h => matchNewfAt_head h) _ _ s hs
  exact ⟨'5', cs, hcs, by decide⟩

lemma findall_beta_found {content : String} :
    ∀ s ∈ findall matchBetaAt content,
      ∃ c cs, s = String.mk (c :: cs) ∧ c ≠ '/' := by
  intro s hs
  obtain ⟨cs, hcs⟩ := findallAux_head matchBetaAt '5'
    (fun _ _ _ h => matchBetaAt_head h) _ _ s hs
  exact ⟨'5', cs, hcs, by decide⟩

lemma findall_legacy_found {content : String} :
    ∀ s ∈ findall matchLegacyAt content,
      ∃ c cs, s = String.mk (c :: cs) ∧ c ≠ '/' := by
  intro s hs
  obtain ⟨cs, hcs⟩ := findallAux_head matchLegacyAt '4'
    (fun _ _ _ h => matchLegacyAt_head h) _ _ s hs
  exact ⟨'4', cs, hcs, by decide⟩

/-- C8.  Version fetching degrades to the fallback constants and never
yields an empty series string: (1) when no download attempt succeeds with
non-empty content, all four series keep their fallback constants; (2) a
series whose pattern matches no candidate in the fetched content keeps its
fallback constant; (3) for every fetch outcome whatsoever, all four series
values are non-empty. -/
theorem c8_fetch_versions_fallback_nonempty :
    (∀ downloads, pickDownload downloads = none →
      fetch_versions false downloads = fallbackVersions) ∧
    (∀ content : String,
      (findall matchProdAt content = [] →
        (parse_versions content).production = PRODUCTION_VERSION) ∧
      (findall matchNewfAt content = [] →
        (parse_versions content).new_feature = NEW_FEATURE_VERSION) ∧
      (findall matchBetaAt content = [] →
        (parse_versions content).beta = BETA_VERSION) ∧
      (findall matchLegacyAt content = [] →
        (parse_versions content).legacy = LEGACY_VERSION)) ∧
    (∀ (demo_mode : Bool) (downloads : List (Nat × String)),
      (fetch_versions demo_mode downloads).production ≠ "" ∧
      (fetch_versions demo_mode downloads).new_feature ≠ "" ∧
      (fetch_versions demo_mode downloads).beta ≠ "" ∧
      (fetch_versions demo_mode downloads).legacy ≠ "") := by
  refine ⟨?_, ?_, ?_⟩
  · intro downloads h
    simp [fetch_versions, h]
  · intro content
    refine ⟨?_, ?_, ?_, ?_⟩ <;>
      · intro hempty
        simp [parse_versions, seriesPick, hempty, sortedLastByKey]
  · intro demo_mode downloads
    cases demo_mode with
    | true =>
      rw [show fetch_versions true downloads = fallbackVersions from rfl]
      refine ⟨?_, ?_, ?_, ?_⟩ <;> decide
    | false =>
      rw [show fetch_versions false downloads =
          (match pickDownload downloads with
           | none => fallbackVersions
           | some content => parse_versions content) from rfl]
      cases hp : pickDownload downloads with
      | none => refine ⟨?_, ?_, ?_, ?_⟩ <;> decide
      | some content =>
        refine ⟨?_, ?_, ?_, ?_⟩
        · exact seriesPick_ne_empty _ _ (by decide) findall_prod_found
        · exact seriesPick_ne_empty _ _ (by decide) findall_newf_found
        · exact seriesPick_ne_empty _ _ (by decide) findall_beta_found
        · exact seriesPick_ne_empty _ _ (by decide) findall_legacy_found

/-- C8 — witness: the statement instantiated at an empty download list and
empty content. -/
theorem c8_fetch_versions_fallback_nonempty_witness :
    fetch_versions false [] = fallbackVersions ∧
    (parse_versions "").production = PRODUCTION_VERSION ∧
    (fetch_versions false []).production ≠ "" :=
  ⟨c8_fetch_versions_fallback_nonempty.1 [] (by decide),
   (c8_fetch_versions_fallback_nonempty.2.1 "").1 (by decide),
   (c8_fetch_versions_fallback_nonempty.2.2 false []).1⟩

lemma charLt_asymm {a b : Char} (h : a < b) : ¬ b < a :=
  fun h2 => Nat.lt_asymm h h2

lemma listCharLt_asymm : ∀ {l1 l2 : List Char},
    List.lt l1 l2 → ¬ List.lt l2 l1 := by
  intro l1 l2 h
  induction h with
  | nil b bs => exact fun h2 => nomatch h2
  | head as bs hab =>
    intro h2
    cases h2 with
    | head _ _ hba => exact charLt_asymm hab hba
    | tail _ hab2 _ => exact hab2 hab
  | tail hab hba _ ih =>
    intro h2
    cases h2 with
    | head _ _ hba2 => exact hba hba2
    | tail _ _ h3 => exact ih h3

lemma nameLt_le {a b : String} (h : nameLt a b) : nameLe a b :=
  listCharLt_asymm h

lemma nameLt_not_le {a x : String} (h : nameLt x a) : ¬ nameLe a x :=
  fun hle => hle h

lemma orderedInsert_top (l : List String) (a : String)
    (h : ∀ x ∈ l, nameLt x a) :
    List.orderedInsert nameLe a l = l ++ [a] := by
  induction l with
  | nil => rfl
  | cons b bs ih =>
    rw [List.orderedInsert,
        if_neg (nameLt_not_le (h b (List.mem_cons_self _ _))),
        ih (fun x hx => h x (List.mem_cons_of_mem _ hx))]
    rfl

lemma insertionSort_cons_top (l : List String) (a : String)
    (hs : List.Pairwise nameLt l) (h : ∀ x ∈ l, nameLt x a) :
    List.insertionSort nameLe (a :: l) = l ++ [a] := by
  rw [List.insertionSort,
      List.Sorted.insertionSort_eq (hs.imp (fun hab => nameLt_le hab))]
  exact orderedInsert_top l a h

lemma create_backup_dir_eq (dir : List String) (a : String)
    (hs : List.Pairwise nameLt (dir ++ [a])) :
    create_backup_dir dir a =
      (dir ++ [a]).drop ((dir ++ [a]).length - MAX_BACKUPS) := by
  have hdir : List.Pairwise nameLt dir :=
    hs.sublist (List.sublist_append_left _ _)
  have hlt : ∀ x ∈ dir, nameLt x a := by
    intro x hx
    exact (List.pairwise_append.mp hs).2.2 x hx a (List.mem_singleton_self a)
  have hins : List.insertionSort nameLe (a :: dir) = dir ++ [a] :=
    insertionSort_cons_top dir a hdir hlt
  simp only [create_backup_dir, hins]
  split
  · rfl
  · next hle =>
      rw [Nat.sub_eq_zero_of_le (Nat.not_lt.mp hle), List.drop_zero]

lemma drop_cap_append (xs ys : List String) (n : Nat) :
    ((xs.drop (xs.length - n)) ++ ys).drop
        (((xs.drop (xs.length - n)) ++ ys).length - n) =
      (xs ++ ys).drop ((xs ++ ys).length - n) := by
  rw [List.drop_append_eq_append_drop, List.drop_append_eq_append_drop,
      List.drop_drop]
  congr 1
  · congr 1
    simp only [List.length_append, List.length_drop]
    omega
  · congr 1
    simp only [List.length_append, List.length_drop]
    omega

lemma snapshots_eq : ∀ (names dir : List String),
    List.Pairwise nameLt (dir ++ names) → dir.length ≤ MAX_BACKUPS →
    snapshots dir names =
      (dir ++ names).drop ((dir ++ names).length - MAX_BACKUPS) := by
  intro names
  induction names with
  | nil =>
    intro dir hs hlen
    rw [show snapshots dir [] = dir from rfl, List.append_nil,
        Nat.sub_eq_zero_of_le hlen, List.drop_zero]
  | cons a ns ih =>
    intro dir hs hlen
    have hsub1 : List.Sublist (dir ++ [a]) (dir ++ a :: ns) :=
      List.Sublist.append_left
        (List.cons_sublist_cons.mpr (List.nil_sublist ns)) dir
    have hsa : List.Pairwise nameLt (dir ++ [a]) := hs.sublist hsub1
    have hstep := create_backup_dir_eq dir a hsa
    have hlen2 : (create_backup_dir dir a).length ≤ MAX_BACKUPS := by
      rw [hstep]
      simp only [List.length_drop]
      omega
    have hsub2 : List.Sublist (create_backup_dir dir a ++ ns)
        (dir ++ a :: ns) := by
      rw [hstep]
      have h1 : List.Sublist
          ((dir ++ [a]).drop ((dir ++ [a]).length - MAX_BACKUPS))
          (dir ++ [a]) := List.drop_sublist _ _
      have h2 := List.Sublist.append_right h1 ns
      simpa [List.append_assoc] using h2
    have hsorted2 : List.Pairwise nameLt (create_backup_dir dir a ++ ns) :=
      hs.sublist hsub2
    have hrec := ih (create_backup_dir dir a) hsorted2 hlen2
    rw [show snapshots dir (a :: ns) =
        snapshots (create_backup_dir dir a) ns from rfl, hrec, hstep]
    have hfinal := drop_cap_append (dir ++ [a]) ns MAX_BACKUPS
    simpa [List.append_assoc] using hfinal

/-- C5.  Backup retention is bounded by the cap of `MAX_BACKUPS = 10`: after
any sequence of 12 successful snapshots whose file names are strictly
increasing (distinct creation timestamps; the fixed-width timestamped names
make lexicographic order creation order) and newer than everything already
in the directory, exactly 10 records remain, and they are the 10 most
recent — the last 10 of the 12 new names. -/
theorem c5_backup_retention_cap (dir names : List String)
    (hs : List.Pairwise nameLt (dir ++ names))
    (hcap : dir.length ≤ MAX_BACKUPS)
    (h12 : names.length = 12) :
    snapshots dir names = names.drop 2 ∧
    (snapshots dir names).length = MAX_BACKUPS := by
  have heq := snapshots_eq names dir hs hcap
  have hdrop : (dir ++ names).drop ((dir ++ names).length - MAX_BACKUPS)
      = names.drop 2 := by
    have harg : (dir ++ names).length - MAX_BACKUPS = dir.length + 2 := by
      simp only [List.length_append, h12, MAX_BACKUPS]
      omega
    rw [harg, List.drop_append_eq_append_drop,
        List.drop_eq_nil_of_le (by omega), List.nil_append]
    congr 1
    omega
  refine ⟨heq.trans hdrop, ?_⟩
  rw [heq, hdrop]
  simp only [List.length_drop, h12]
  rfl

/-- C5 — witness: twelve ascending snapshot file names applied to an empty
backup directory. -/
theorem c5_backup_retention_cap_witness :
    snapshots []
        ["backup-01.json", "backup-02.json", "backup-03.json",
         "backup-04.json", "backup-05.json", "backup-06.json",
         "backup-07.json", "backup-08.json", "backup-09.json",
         "backup-10.json", "backup-11.json", "backup-12.json"] =
      ["backup-03.json", "backup-04.json", "backup-05.json",
       "backup-06.json", "backup-07.json", "backup-08.json",
       "backup-09.json", "backup-10.json", "backup-11.json",
       "backup-12.json"] ∧
    (snapshots []
        ["backup-01.json", "backup-02.json", "backup-03.json",
         "backup-04.json", "backup-05.json", "backup-06.json",
         "backup-07.json", "backup-08.json", "backup-09.json",
         "backup-10.json", "backup-11.json", "backup-12.json"]).length =
      MAX_BACKUPS :=
  c5_backup_retention_cap []
    ["backup-01.json", "backup-02.json", "backup-03.json",
     "backup-04.json", "backup-05.json", "backup-06.json",
     "backup-07.json", "backup-08.json", "backup-09.json",
     "backup-10.json", "backup-11.json", "backup-12.json"]
    (by decide) (by decide) (by decide)

end NvidiaDriverManager
